import Mathlib

/-!
Shallow embedding of the `embedded-batteries` crates (ACPI serializers,
SBS bitfield registers, and the blocking/async `SmartBattery` trait
catalogs), together with proofs about the properties the crates document.

Conventions of the embedding:
* Rust `u32`/`u16`/`u8`/`usize` values are `Nat` (claims quantify with
  explicit `< 2^w` bounds where the width matters).
* Byte buffers (`&mut [u8]`) are `List Nat`.
* A Rust panic (out-of-bounds slice indexing, `copy_from_slice` length
  mismatch, `unreachable!`) is modelled as an explicit `panicked` outcome
  (`none` for panicking accessors).
-/

namespace EmbeddedBatteries

/-- Rust `u32::to_le_bytes`: the four little-endian bytes of a `u32` value. -/
def u32_to_le_bytes (n : Nat) : List Nat :=
  [n % 256, n / 2 ^ 8 % 256, n / 2 ^ 16 % 256, n / 2 ^ 24 % 256]

/-- Rust `dst[start..start+len].copy_from_slice(src)`: succeeds (returning the
updated buffer) when the range lies inside `dst` and `src` has exactly the
range's length; otherwise the Rust code panics, modelled as `none`. -/
def writeSlice (dst : List Nat) (start : Nat) (src : List Nat) (len : Nat) :
    Option (List Nat) :=
  if start + len ≤ dst.length ∧ src.length = len then
    some (dst.take start ++ src ++ dst.drop (start + len))
  else
    none

/-- Runs a sequence of `copy_from_slice` statements (each given as
destination start index, source bytes, and range length) in order, threading
the buffer; `none` as soon as one of them panics. -/
def writeAll (dst : List Nat) : List (Nat × List Nat × Nat) → Option (List Nat)
  | [] => some dst
  | (start, src, len) :: rest =>
    match writeSlice dst start src len with
    | none => none
    | some d => writeAll d rest

/-- Outcome of running one of the `to_bytes` serializers: a Rust panic, an
early `Err` return (carrying the buffer state at the return, which the code
has not yet touched), or `Ok` with the fully written buffer. -/
inductive SerResult (ε : Type) where
  | panicked : SerResult ε
  | error : ε → List Nat → SerResult ε
  | ok : List Nat → SerResult ε
deriving DecidableEq

/-- The `enum PifSerializeErr` from `acpi.rs`. -/
inductive PifSerializeErr where
  | StringSizeMismatch : PifSerializeErr
  | InputSliceTooSmall : PifSerializeErr
deriving DecidableEq

/-- The `struct Pif<'a>` from `acpi.rs` (the `PowerSourceState` bitflags field is
carried as its raw `u32` bits, which is all `to_bytes` reads via `.bits()`). -/
structure Pif where
  power_source_state : Nat
  max_output_power : Nat
  max_input_power : Nat
  model_number : List Nat
  serial_number : List Nat
  oem_info : List Nat
deriving DecidableEq

/-- The sequence of buffer writes performed by `Pif::to_bytes` once both
validation checks have passed; `none` is the first panicking write. -/
def Pif.writes (self : Pif) (dst_slice : List Nat)
    (model_num_size serial_num_size oem_info_size : Nat) : Option (List Nat) :=
  let MODEL_NUM_START_IDX := 12
  let model_num_end_idx := MODEL_NUM_START_IDX + model_num_size
  let serial_num_start_idx := model_num_end_idx
  let serial_num_end_idx := serial_num_start_idx + serial_num_size
  let oem_info_start_idx := serial_num_end_idx
  writeAll dst_slice
    [(0, u32_to_le_bytes self.power_source_state, 4),
     (4, u32_to_le_bytes self.max_output_power, 4),
     (8, u32_to_le_bytes self.max_input_power, 4),
     (MODEL_NUM_START_IDX, self.model_number, model_num_size),
     (serial_num_start_idx, self.serial_number, serial_num_size),
     (oem_info_start_idx, self.oem_info, oem_info_size)]

/-- Rust `Pif::to_bytes` from `acpi.rs`: validates the destination length against
`oem_info_end_idx`, then the declared sizes against the actual slice lengths,
then writes the three little-endian `u32` header fields at offsets 0, 4, 8
followed by the three variable-length fields. -/
def Pif.to_bytes (self : Pif) (dst_slice : List Nat)
    (model_num_size serial_num_size oem_info_size : Nat) :
    SerResult PifSerializeErr :=
  let MODEL_NUM_START_IDX := 12
  let model_num_end_idx := MODEL_NUM_START_IDX + model_num_size
  let serial_num_start_idx := model_num_end_idx
  let serial_num_end_idx := serial_num_start_idx + serial_num_size
  let oem_info_start_idx := serial_num_end_idx
  let oem_info_end_idx := oem_info_start_idx + oem_info_size
  if dst_slice.length < oem_info_end_idx then
    .error .InputSliceTooSmall dst_slice
  else if self.model_number.length ≠ model_num_size ∨
      self.serial_number.length ≠ serial_num_size ∨
      self.oem_info.length ≠ oem_info_size then
    .error .StringSizeMismatch dst_slice
  else
    match Pif.writes self dst_slice model_num_size serial_num_size oem_info_size with
    | none => .panicked
    | some d => .ok d

/-- The `enum PowerUnit` from `acpi.rs`. -/
inductive PowerUnit where
  | MilliWatts : PowerUnit
  | MilliAmps : PowerUnit
deriving DecidableEq

/-- Rust `impl From<PowerUnit> for u32`. -/
def PowerUnit.to_u32 : PowerUnit → Nat
  | .MilliWatts => 0
  | .MilliAmps => 1

/-- The `enum BatteryTechnology` from `acpi.rs`. -/
inductive BatteryTechnology where
  | Primary : BatteryTechnology
  | Secondary : BatteryTechnology
deriving DecidableEq

/-- Rust `impl From<BatteryTechnology> for u32`. -/
def BatteryTechnology.to_u32 : BatteryTechnology → Nat
  | .Primary => 0
  | .Secondary => 1

/-- The `enum BatterySwapCapability` from `acpi.rs`. -/
inductive BatterySwapCapability where
  | NonSwappable : BatterySwapCapability
  | ColdSwappable : BatterySwapCapability
  | HotSwappable : BatterySwapCapability
deriving DecidableEq

/-- Rust `impl From<BatterySwapCapability> for u32`. -/
def BatterySwapCapability.to_u32 : BatterySwapCapability → Nat
  | .NonSwappable => 0
  | .ColdSwappable => 1
  | .HotSwappable => 2

/-- The `enum BixReturnSerializeErr` from `acpi.rs`. -/
inductive BixReturnSerializeErr where
  | StringSizeMismatch : BixReturnSerializeErr
  | InputSliceTooSmall : BixReturnSerializeErr
deriving DecidableEq

/-- The `struct BixReturn<'a>` from `acpi.rs`. -/
structure BixReturn where
  revision : Nat
  power_unit : PowerUnit
  design_capacity : Nat
  last_full_charge_capacity : Nat
  battery_technology : BatteryTechnology
  design_voltage : Nat
  design_cap_of_warning : Nat
  design_cap_of_low : Nat
  cycle_count : Nat
  measurement_accuracy : Nat
  max_sampling_time : Nat
  min_sampling_time : Nat
  max_averaging_interval : Nat
  min_averaging_interval : Nat
  battery_capacity_granularity_1 : Nat
  battery_capacity_granularity_2 : Nat
  model_number : List Nat
  serial_number : List Nat
  battery_type : List Nat
  oem_info : List Nat
  battery_swapping_capability : BatterySwapCapability
deriving DecidableEq

/-- The sequence of buffer writes performed by `BixReturn::to_bytes` once both
validation checks have passed; `none` is the first panicking write. Note the
final write: `dst_slice[oem_info_end_idx..oem_info_end_idx + 4]` stores
`battery_swapping_capability` *past* the index the length check guarded. -/
def BixReturn.writes (self : BixReturn) (dst_slice : List Nat)
    (model_num_size serial_num_size battery_type_size oem_info_size : Nat) :
    Option (List Nat) :=
  let MODEL_NUM_START_IDX := 64
  let model_num_end_idx := MODEL_NUM_START_IDX + model_num_size
  let serial_num_start_idx := model_num_end_idx
  let serial_num_end_idx := serial_num_start_idx + serial_num_size
  let battery_type_start_idx := serial_num_end_idx
  let battery_type_end_idx := battery_type_start_idx + battery_type_size
  let oem_info_start_idx := battery_type_end_idx
  let oem_info_end_idx := oem_info_start_idx + oem_info_size
  writeAll dst_slice
    [(0, u32_to_le_bytes self.revision, 4),
     (4, u32_to_le_bytes self.power_unit.to_u32, 4),
     (8, u32_to_le_bytes self.design_capacity, 4),
     (12, u32_to_le_bytes self.last_full_charge_capacity, 4),
     (16, u32_to_le_bytes self.battery_technology.to_u32, 4),
     (20, u32_to_le_bytes self.design_voltage, 4),
     (24, u32_to_le_bytes self.design_cap_of_warning, 4),
     (28, u32_to_le_bytes self.design_cap_of_low, 4),
     (32, u32_to_le_bytes self.cycle_count, 4),
     (36, u32_to_le_bytes self.measurement_accuracy, 4),
     (40, u32_to_le_bytes self.max_sampling_time, 4),
     (44, u32_to_le_bytes self.min_sampling_time, 4),
     (48, u32_to_le_bytes self.max_averaging_interval, 4),
     (52, u32_to_le_bytes self.min_averaging_interval, 4),
     (56, u32_to_le_bytes self.battery_capacity_granularity_1, 4),
     (60, u32_to_le_bytes self.battery_capacity_granularity_2, 4),
     (MODEL_NUM_START_IDX, self.model_number, model_num_size),
     (serial_num_start_idx, self.serial_number, serial_num_size),
     (battery_type_start_idx, self.battery_type, battery_type_size),
     (oem_info_start_idx, self.oem_info, oem_info_size),
     (oem_info_end_idx, u32_to_le_bytes self.battery_swapping_capability.to_u32, 4)]

/-- Rust `BixReturn::to_bytes` from `acpi.rs`: validates the destination length
against `oem_info_end_idx` (not against the final write's end index
`oem_info_end_idx + 4`), then the declared sizes against the actual slice
lengths, then performs the writes of the 64-byte fixed header, the four
variable-length fields, and the trailing `battery_swapping_capability`. -/
def BixReturn.to_bytes (self : BixReturn) (dst_slice : List Nat)
    (model_num_size serial_num_size battery_type_size oem_info_size : Nat) :
    SerResult BixReturnSerializeErr :=
  let MODEL_NUM_START_IDX := 64
  let model_num_end_idx := MODEL_NUM_START_IDX + model_num_size
  let serial_num_start_idx := model_num_end_idx
  let serial_num_end_idx := serial_num_start_idx + serial_num_size
  let battery_type_start_idx := serial_num_end_idx
  let battery_type_end_idx := battery_type_start_idx + battery_type_size
  let oem_info_start_idx := battery_type_end_idx
  let oem_info_end_idx := oem_info_start_idx + oem_info_size
  if dst_slice.length < oem_info_end_idx then
    .error .InputSliceTooSmall dst_slice
  else if self.model_number.length ≠ model_num_size ∨
      self.serial_number.length ≠ serial_num_size ∨
      self.battery_type.length ≠ battery_type_size ∨
      self.oem_info.length ≠ oem_info_size then
    .error .StringSizeMismatch dst_slice
  else
    match BixReturn.writes self dst_slice model_num_size serial_num_size
        battery_type_size oem_info_size with
    | none => .panicked
    | some d => .ok d

/-- An all-defaults `BixReturn` with empty variable-length fields
(`Default` derive: numeric fields zero, `PowerUnit::MilliAmps`,
`BatteryTechnology::Secondary`, `BatterySwapCapability::NonSwappable`). -/
def bixDefault : BixReturn :=
  { revision := 0
    power_unit := .MilliAmps
    design_capacity := 0
    last_full_charge_capacity := 0
    battery_technology := .Secondary
    design_voltage := 0
    design_cap_of_warning := 0
    design_cap_of_low := 0
    cycle_count := 0
    measurement_accuracy := 0
    max_sampling_time := 0
    min_sampling_time := 0
    max_averaging_interval := 0
    min_averaging_interval := 0
    battery_capacity_granularity_1 := 0
    battery_capacity_granularity_2 := 0
    model_number := []
    serial_number := []
    battery_type := []
    oem_info := []
    battery_swapping_capability := .NonSwappable }

/-! ### SBS bitfield registers (`smart_battery.rs`)

Each `#[bitfield(u16)]` struct generated by the `bitfield_struct` macro is a
transparent wrapper over its backing `u16`: `from_bits`/`into_bits` store and
return the raw integer unchanged, a field getter extracts
`(self.0 >> OFFSET) & MASK` (converted through the field type's `from_bits`
for enum-typed fields), and a `with_*` setter replaces the field's bit range,
masking the new value to the field width. The backing `u16`'s complement is
modelled by XOR with `0xFFFF`. -/

/-- The `enum ErrorCode` from `smart_battery.rs`. -/
inductive ErrorCode where
  | Ok : ErrorCode
  | Busy : ErrorCode
  | ReservedCmd : ErrorCode
  | UnsupportedCmd : ErrorCode
  | AccessDenied : ErrorCode
  | UnderOverFlow : ErrorCode
  | BadSize : ErrorCode
  | UnknownError : ErrorCode
deriving DecidableEq

/-- Rust `ErrorCode::from_bits`: values 0–6 map to the specific codes, everything
else falls through to `UnknownError`. -/
def ErrorCode.from_bits (value : Nat) : ErrorCode :=
  match value with
  | 0 => .Ok
  | 1 => .Busy
  | 2 => .ReservedCmd
  | 3 => .UnsupportedCmd
  | 4 => .AccessDenied
  | 5 => .UnderOverFlow
  | 6 => .BadSize
  | _ => .UnknownError

/-- Rust `ErrorCode::into_bits` (`self as u8`). -/
def ErrorCode.into_bits : ErrorCode → Nat
  | .Ok => 0
  | .Busy => 1
  | .ReservedCmd => 2
  | .UnsupportedCmd => 3
  | .AccessDenied => 4
  | .UnderOverFlow => 5
  | .BadSize => 6
  | .UnknownError => 7

/-- The `enum Revision` from `smart_battery.rs` (a single variant). -/
inductive Revision where
  | Version1And1Dot1 : Revision
deriving DecidableEq

/-- Rust `Revision::from_bits`: value 1 decodes; every other value hits
`unreachable!()`, a panic, modelled as `none`. -/
def Revision.from_bits (value : Nat) : Option Revision :=
  match value with
  | 1 => some .Version1And1Dot1
  | _ => none

/-- The `enum Version` from `smart_battery.rs`. -/
inductive Version where
  | Reserved : Version
  | Version1 : Version
  | Version1Dot1 : Version
  | Version1Dot1Pec : Version
deriving DecidableEq

/-- Rust `Version::from_bits`: 1–3 map to the known versions, everything else to
`Reserved`. -/
def Version.from_bits (value : Nat) : Version :=
  match value with
  | 1 => .Version1
  | 2 => .Version1Dot1
  | 3 => .Version1Dot1Pec
  | _ => .Reserved

/-- Register `ManufactureDate` (`#[bitfield(u16)]`): day in bits 0–4, month in bits
5–8, year in bits 9–15. -/
structure ManufactureDate where
  bits : Nat
deriving DecidableEq

/-- Rust `ManufactureDate::new()`: all bits zero. -/
def ManufactureDate.new : ManufactureDate := ⟨0⟩

/-- Generated `from_bits`: stores the backing integer unchanged. -/
def ManufactureDate.from_bits (v : Nat) : ManufactureDate := ⟨v⟩

/-- Generated `into_bits`: returns the backing integer unchanged. -/
def ManufactureDate.into_bits (s : ManufactureDate) : Nat := s.bits

/-- Generated `day()` getter: 5 bits at offset 0. -/
def ManufactureDate.day (s : ManufactureDate) : Nat := (s.bits >>> 0) &&& 0x1F

/-- Generated `month()` getter: 4 bits at offset 5. -/
def ManufactureDate.month (s : ManufactureDate) : Nat := (s.bits >>> 5) &&& 0xF

/-- Generated `year()` getter: 7 bits at offset 9. -/
def ManufactureDate.year (s : ManufactureDate) : Nat := (s.bits >>> 9) &&& 0x7F

/-- Generated `with_day` setter. -/
def ManufactureDate.with_day (s : ManufactureDate) (v : Nat) : ManufactureDate :=
  ⟨(s.bits &&& (0xFFFF ^^^ (0x1F <<< 0))) ||| ((v &&& 0x1F) <<< 0)⟩

/-- Generated `with_month` setter. -/
def ManufactureDate.with_month (s : ManufactureDate) (v : Nat) : ManufactureDate :=
  ⟨(s.bits &&& (0xFFFF ^^^ (0xF <<< 5))) ||| ((v &&& 0xF) <<< 5)⟩

/-- Generated `with_year` setter. -/
def ManufactureDate.with_year (s : ManufactureDate) (v : Nat) : ManufactureDate :=
  ⟨(s.bits &&& (0xFFFF ^^^ (0x7F <<< 9))) ||| ((v &&& 0x7F) <<< 9)⟩

/-- Register `BatteryModeFields` (`#[bitfield(u16)]`): flag bits with reserved ranges
at bits 2–6 and 10–12. -/
structure BatteryModeFields where
  bits : Nat
deriving DecidableEq

/-- Generated `from_bits`: stores the backing integer unchanged (reserved
bits included). -/
def BatteryModeFields.from_bits (v : Nat) : BatteryModeFields := ⟨v⟩

/-- Generated `into_bits`: returns the backing integer unchanged (reserved
bits included). -/
def BatteryModeFields.into_bits (s : BatteryModeFields) : Nat := s.bits

/-- Generated `capacity_mode()` getter: bit 15. -/
def BatteryModeFields.capacity_mode (s : BatteryModeFields) : Bool :=
  ((s.bits >>> 15) &&& 1) ≠ 0

/-- Register `BatteryStatusFields` (`#[bitfield(u16)]`): the 4-bit error code at bits
0–3, flag bits above, reserved bits 11 and 13. -/
structure BatteryStatusFields where
  bits : Nat
deriving DecidableEq

/-- Generated `from_bits`: stores the backing integer unchanged (reserved
bits included). -/
def BatteryStatusFields.from_bits (v : Nat) : BatteryStatusFields := ⟨v⟩

/-- Generated `into_bits`: returns the backing integer unchanged (reserved
bits included). -/
def BatteryStatusFields.into_bits (s : BatteryStatusFields) : Nat := s.bits

/-- Generated `error_code()` getter: `ErrorCode::from_bits` applied to the 4
bits at offset 0. -/
def BatteryStatusFields.error_code (s : BatteryStatusFields) : ErrorCode :=
  ErrorCode.from_bits ((s.bits >>> 0) &&& 0xF)

/-- Register `SpecificationInfoFields` (`#[bitfield(u16)]`): 4-bit revision, version,
v_scale and ip_scale fields. -/
structure SpecificationInfoFields where
  bits : Nat
deriving DecidableEq

/-- Generated `from_bits`: stores the backing integer unchanged. -/
def SpecificationInfoFields.from_bits (v : Nat) : SpecificationInfoFields := ⟨v⟩

/-- Generated `into_bits`: returns the backing integer unchanged. -/
def SpecificationInfoFields.into_bits (s : SpecificationInfoFields) : Nat := s.bits

/-- Generated `revision()` getter: `Revision::from_bits` applied to the 4
bits at offset 0; `none` models the `unreachable!()` panic inside
`Revision::from_bits`. -/
def SpecificationInfoFields.revision (s : SpecificationInfoFields) : Option Revision :=
  Revision.from_bits ((s.bits >>> 0) &&& 0xF)

/-- Generated `version()` getter: `Version::from_bits` applied to the 4 bits
at offset 4. -/
def SpecificationInfoFields.version (s : SpecificationInfoFields) : Version :=
  Version.from_bits ((s.bits >>> 4) &&& 0xF)

/-- Generated `v_scale()` getter: 4 bits at offset 8. -/
def SpecificationInfoFields.v_scale (s : SpecificationInfoFields) : Nat :=
  (s.bits >>> 8) &&& 0xF

/-- Generated `ip_scale()` getter: 4 bits at offset 12. -/
def SpecificationInfoFields.ip_scale (s : SpecificationInfoFields) : Nat :=
  (s.bits >>> 12) &&& 0xF

/-! ### The two `SmartBattery` trait catalogs

`embedded-batteries/src/smart_battery.rs` declares the blocking trait;
`embedded-batteries-async/src/smart_battery.rs` declares the asynchronous one.
Each trait method is transcribed as an `OpSig`: its name, the types of its
non-`self` arguments, and the `Ok` type of its `Result` return (for the async
trait, the `Output` of the returned `Future`, i.e. the value after the
suspension point). Type aliases (`Minutes`, `DeciKelvin`, `Cycles`,
`MilliAmps`, `MilliVolts` = `u16`; `Percent` = `u8`; `MilliAmpsSigned` =
`i16`, from `lib.rs` / `smart_battery.rs`) are resolved to their underlying
types, mirroring that Rust aliases are transparent. -/

/-- The Rust types appearing in `SmartBattery` method signatures. -/
inductive Ty where
  | unit : Ty
  | bool : Ty
  | u8 : Ty
  | u16 : Ty
  | i16 : Ty
  | u8SliceMut : Ty
  | capacityModeValue : Ty
  | capacityModeSignedValue : Ty
  | batteryModeFields : Ty
  | batteryStatusFields : Ty
  | specificationInfoFields : Ty
  | manufactureDate : Ty
deriving DecidableEq

/-- One trait method: name, non-`self` argument types, `Ok` result type. -/
structure OpSig where
  name : String
  args : List Ty
  ret : Ty
deriving DecidableEq

/-- The 29 methods of the blocking `SmartBattery` trait
(`embedded-batteries/src/smart_battery.rs`), in declaration order. -/
def blockingSmartBatteryOps : List OpSig :=
  [⟨"remaining_capacity_alarm", [.capacityModeValue], .capacityModeValue⟩,
   ⟨"remaining_time_alarm", [.u16], .u16⟩,
   ⟨"battery_mode", [.u16], .u16⟩,
   ⟨"at_rate", [.capacityModeSignedValue], .capacityModeSignedValue⟩,
   ⟨"at_rate_time_to_full", [], .u16⟩,
   ⟨"at_rate_time_to_empty", [], .u16⟩,
   ⟨"at_rate_ok", [], .bool⟩,
   ⟨"temperature", [], .bool⟩,
   ⟨"voltage", [], .u16⟩,
   ⟨"current", [], .i16⟩,
   ⟨"average_current", [], .i16⟩,
   ⟨"max_error", [], .u8⟩,
   ⟨"relative_state_of_charge", [], .u8⟩,
   ⟨"absolute_state_of_charge", [], .u8⟩,
   ⟨"remaining_capacity", [], .capacityModeValue⟩,
   ⟨"full_charge_capacity", [], .capacityModeValue⟩,
   ⟨"run_time_to_empty", [], .u16⟩,
   ⟨"average_time_to_empty", [], .u16⟩,
   ⟨"average_time_to_full", [], .u16⟩,
   ⟨"battery_status", [], .batteryStatusFields⟩,
   ⟨"cycle_count", [], .u16⟩,
   ⟨"design_capacity", [], .capacityModeValue⟩,
   ⟨"design_voltage", [], .u16⟩,
   ⟨"specification_info", [], .u16⟩,
   ⟨"manufacture_date", [], .manufactureDate⟩,
   ⟨"serial_number", [], .u16⟩,
   ⟨"manufacturer_name", [.u8SliceMut], .unit⟩,
   ⟨"device_name", [.u8SliceMut], .unit⟩,
   ⟨"device_chemistry", [.u8SliceMut], .unit⟩]

/-- The 35 methods of the asynchronous `SmartBattery` trait
(`embedded-batteries-async/src/smart_battery.rs`), in declaration order. -/
def asyncSmartBatteryOps : List OpSig :=
  [⟨"remaining_capacity_alarm", [], .capacityModeValue⟩,
   ⟨"set_remaining_capacity_alarm", [.capacityModeValue], .unit⟩,
   ⟨"remaining_time_alarm", [], .u16⟩,
   ⟨"set_remaining_time_alarm", [.u16], .unit⟩,
   ⟨"battery_mode", [], .batteryModeFields⟩,
   ⟨"set_battery_mode", [.batteryModeFields], .unit⟩,
   ⟨"at_rate", [], .capacityModeSignedValue⟩,
   ⟨"set_at_rate", [.capacityModeSignedValue], .unit⟩,
   ⟨"at_rate_time_to_full", [], .u16⟩,
   ⟨"at_rate_time_to_empty", [], .u16⟩,
   ⟨"at_rate_ok", [], .bool⟩,
   ⟨"temperature", [], .u16⟩,
   ⟨"voltage", [], .u16⟩,
   ⟨"current", [], .i16⟩,
   ⟨"average_current", [], .i16⟩,
   ⟨"max_error", [], .u8⟩,
   ⟨"relative_state_of_charge", [], .u8⟩,
   ⟨"absolute_state_of_charge", [], .u8⟩,
   ⟨"remaining_capacity", [], .capacityModeValue⟩,
   ⟨"full_charge_capacity", [], .capacityModeValue⟩,
   ⟨"run_time_to_empty", [], .u16⟩,
   ⟨"average_time_to_empty", [], .u16⟩,
   ⟨"average_time_to_full", [], .u16⟩,
   ⟨"charging_current", [], .u16⟩,
   ⟨"charging_voltage", [], .u16⟩,
   ⟨"battery_status", [], .batteryStatusFields⟩,
   ⟨"cycle_count", [], .u16⟩,
   ⟨"design_capacity", [], .capacityModeValue⟩,
   ⟨"design_voltage", [], .u16⟩,
   ⟨"specification_info", [], .specificationInfoFields⟩,
   ⟨"manufacture_date", [], .manufactureDate⟩,
   ⟨"serial_number", [], .u16⟩,
   ⟨"manufacturer_name", [.u8SliceMut], .unit⟩,
   ⟨"device_name", [.u8SliceMut], .unit⟩,
   ⟨"device_chemistry", [.u8SliceMut], .unit⟩]

/-- Operation names whose signatures differ between the two traits: the
combined get-and-set operations that the async trait splits into a get/set
pair, plus `temperature` (`bool` vs `DeciKelvin`), `battery_mode` and
`specification_info` (raw `u16` vs the typed bitfield struct). -/
def divergentOpNames : List String :=
  ["remaining_capacity_alarm", "remaining_time_alarm", "battery_mode",
   "at_rate", "temperature", "specification_info"]

/-! ### Helper lemmas -/

set_option maxRecDepth 10000 in
theorem md_day_step : ∀ d < 32, (ManufactureDate.new.with_day d).bits = d := by
  decide

set_option maxRecDepth 10000 in
theorem md_month_step :
    ∀ d < 32, ∀ m < 16,
      (d &&& (0xFFFF ^^^ (0xF <<< 5))) ||| ((m &&& 0xF) <<< 5) = d + m * 32 := by
  decide

set_option maxRecDepth 10000 in
theorem md_year_mask : ∀ b < 512, b &&& (0xFFFF ^^^ (0x7F <<< 9)) = b := by
  decide

set_option maxRecDepth 10000 in
theorem md_year_val : ∀ y < 128, (y &&& 0x7F) <<< 9 = y * 512 := by
  decide

theorem md_or_add (b y : Nat) (hb : b < 512) : b ||| y * 512 = b + y * 512 := by
  have h := Nat.mul_add_lt_is_or (b := b) (i := 9) hb y
  have e : 2 ^ 9 * y = y * 512 := by ring
  rw [e] at h
  rw [Nat.or_comm, ← h]
  omega

theorem md_with_month_bits (s : ManufactureDate) (v : Nat) :
    (s.with_month v).bits = (s.bits &&& (0xFFFF ^^^ (0xF <<< 5))) ||| ((v &&& 0xF) <<< 5) :=
  rfl

theorem md_with_year_bits (s : ManufactureDate) (v : Nat) :
    (s.with_year v).bits = (s.bits &&& (0xFFFF ^^^ (0x7F <<< 9))) ||| ((v &&& 0x7F) <<< 9) :=
  rfl

theorem manufactureDate_pack (d m y : Nat) (hd : d < 32) (hm : m < 16)
    (hy : y < 128) :
    (((ManufactureDate.new.with_day d).with_month m).with_year y).bits
      = d + m * 32 + y * 512 := by
  rw [md_with_year_bits, md_with_month_bits, md_day_step d hd,
    md_month_step d hd m hm, md_year_mask (d + m * 32) (by omega),
    md_year_val y hy, md_or_add (d + m * 32) y (by omega)]

theorem md_getter_arith (B : Nat) :
    ((B >>> 0) &&& 0x1F) = B % 32 ∧ ((B >>> 5) &&& 0xF) = B / 32 % 16 ∧
      ((B >>> 9) &&& 0x7F) = B / 512 % 128 := by
  refine ⟨?_, ?_, ?_⟩
  · have h : (0x1F : Nat) = 2 ^ 5 - 1 := by norm_num
    rw [Nat.shiftRight_zero, h, Nat.and_pow_two_sub_one_eq_mod]
  · have h : (0xF : Nat) = 2 ^ 4 - 1 := by norm_num
    rw [Nat.shiftRight_eq_div_pow, h, Nat.and_pow_two_sub_one_eq_mod]
  · have h : (0x7F : Nat) = 2 ^ 7 - 1 := by norm_num
    rw [Nat.shiftRight_eq_div_pow, h, Nat.and_pow_two_sub_one_eq_mod]

/-! ### The claims -/

/-- C7: for every triple with day in 1–31, month in 1–12 and year in 0–127,
building a `ManufactureDate` with the generated `with_day`/`with_month`/
`with_year` setters and reading the three getters back recovers exactly the
same triple, the backing 16-bit integer holding day in its low 5 bits, month
in the next 4 and year in the next 7 (`day + month * 32 + year * 512`). -/
theorem manufacture_date_set_get_roundtrip (d m y : Nat)
    (hd1 : 1 ≤ d) (hd2 : d ≤ 31) (hm1 : 1 ≤ m) (hm2 : m ≤ 12) (hy : y ≤ 127) :
    (((ManufactureDate.new.with_day d).with_month m).with_year y).day = d ∧
    (((ManufactureDate.new.with_day d).with_month m).with_year y).month = m ∧
    (((ManufactureDate.new.with_day d).with_month m).with_year y).year = y ∧
    (((ManufactureDate.new.with_day d).with_month m).with_year y).bits
      = d + m * 32 + y * 512 := by
  have hp := manufactureDate_pack d m y (by omega) (by omega) (by omega)
  refine ⟨?_, ?_, ?_, hp⟩
  · show ((((ManufactureDate.new.with_day d).with_month m).with_year y).bits >>> 0)
        &&& 0x1F = d
    rw [hp, (md_getter_arith (d + m * 32 + y * 512)).1]
    omega
  · show ((((ManufactureDate.new.with_day d).with_month m).with_year y).bits >>> 5)
        &&& 0xF = m
    rw [hp, (md_getter_arith (d + m * 32 + y * 512)).2.1]
    omega
  · show ((((ManufactureDate.new.with_day d).with_month m).with_year y).bits >>> 9)
        &&& 0x7F = y
    rw [hp, (md_getter_arith (d + m * 32 + y * 512)).2.2]
    omega

/-- C7 witness: the round trip at the concrete triple day 15, month 7,
year 45. -/
theorem manufacture_date_set_get_roundtrip_witness :
    (((ManufactureDate.new.with_day 15).with_month 7).with_year 45).day = 15 ∧
    (((ManufactureDate.new.with_day 15).with_month 7).with_year 45).month = 7 ∧
    (((ManufactureDate.new.with_day 15).with_month 7).with_year 45).year = 45 ∧
    (((ManufactureDate.new.with_day 15).with_month 7).with_year 45).bits
      = 15 + 7 * 32 + 45 * 512 :=
  manufacture_date_set_get_roundtrip 15 7 45 (by omega) (by omega) (by omega)
    (by omega) (by omega)

/-- C6: decoding any 16-bit integer into each of the four bitfield registers
(`BatteryModeFields`, `BatteryStatusFields`, `SpecificationInfoFields`,
`ManufactureDate`) and re-encoding it reproduces the integer exactly,
reserved/padding and read-only bits included, because the generated
`from_bits`/`into_bits` pair is a transparent wrapper around the backing
`u16`. -/
theorem bitfield_from_into_bits_roundtrip (I : Nat) (hI : I < 2 ^ 16) :
    (BatteryModeFields.from_bits I).into_bits = I ∧
    (BatteryStatusFields.from_bits I).into_bits = I ∧
    (SpecificationInfoFields.from_bits I).into_bits = I ∧
    (ManufactureDate.from_bits I).into_bits = I :=
  ⟨rfl, rfl, rfl, rfl⟩

/-- C6 witness: the round trip at the concrete register value 0xABCD. -/
theorem bitfield_from_into_bits_roundtrip_witness :
    0xABCD < 2 ^ 16 ∧
    ((BatteryModeFields.from_bits 0xABCD).into_bits = 0xABCD ∧
     (BatteryStatusFields.from_bits 0xABCD).into_bits = 0xABCD ∧
     (SpecificationInfoFields.from_bits 0xABCD).into_bits = 0xABCD ∧
     (ManufactureDate.from_bits 0xABCD).into_bits = 0xABCD) :=
  ⟨by norm_num, bitfield_from_into_bits_roundtrip 0xABCD (by norm_num)⟩

/-- C8: every 4-bit pattern of the `BatteryStatusFields` error-code sub-field
decodes without failure; patterns 0–6 map to `Ok`, `Busy`, `ReservedCmd`,
`UnsupportedCmd`, `AccessDenied`, `UnderOverFlow` and `BadSize` respectively
and every pattern ≥ 7 maps to `UnknownError`. -/
theorem battery_status_error_code_decode (p : Nat) (hp : p < 16) :
    (BatteryStatusFields.from_bits p).error_code =
      (if p = 0 then .Ok
       else if p = 1 then .Busy
       else if p = 2 then .ReservedCmd
       else if p = 3 then .UnsupportedCmd
       else if p = 4 then .AccessDenied
       else if p = 5 then .UnderOverFlow
       else if p = 6 then .BadSize
       else .UnknownError) := by
  revert p
  decide

/-- C8 witness: the decode at the concrete out-of-range pattern 9, which maps
to `UnknownError`. -/
theorem battery_status_error_code_decode_witness :
    9 < 16 ∧
    (BatteryStatusFields.from_bits 9).error_code =
      (if 9 = 0 then .Ok
       else if 9 = 1 then .Busy
       else if 9 = 2 then .ReservedCmd
       else if 9 = 3 then .UnsupportedCmd
       else if 9 = 4 then .AccessDenied
       else if 9 = 5 then .UnderOverFlow
       else if 9 = 6 then .BadSize
       else .UnknownError) :=
  ⟨by norm_num, battery_status_error_code_decode 9 (by norm_num)⟩

/-- C3 counterexample: the claim says every 4-bit pattern of the
`SpecificationInfoFields` revision sub-field decodes to some variant, with
out-of-range patterns mapping to an unknown/reserved variant. It is false at
pattern 0: `Revision::from_bits(0)` is `unreachable!()` — a panic, modelled
as `none` — so reading the revision field of a register whose low 4 bits are
0 does not succeed. -/
theorem specification_info_revision_decode_claim_false :
    (SpecificationInfoFields.from_bits 0).revision = none := by
  decide

/-- C3 amended: the `version` sub-field decodes totally, with every 4-bit
pattern outside 1–3 mapping to the catch-all `Reserved`; the `revision`
sub-field, however, decodes successfully only for pattern 1 and panics
(`unreachable!()`, modelled as `none`) on every other 4-bit pattern. -/
theorem specification_info_decode_amended (p : Nat) (hp : p < 16) :
    ((SpecificationInfoFields.from_bits p).revision =
      if p = 1 then some .Version1And1Dot1 else none) ∧
    ((SpecificationInfoFields.from_bits (p <<< 4)).version =
      if p = 1 then .Version1
      else if p = 2 then .Version1Dot1
      else if p = 3 then .Version1Dot1Pec
      else .Reserved) := by
  revert p
  decide

/-- C3 witness: the amended decode behaviour at the concrete pattern 5
(revision panics, version falls back to `Reserved`). -/
theorem specification_info_decode_amended_witness :
    5 < 16 ∧
    (((SpecificationInfoFields.from_bits 5).revision =
       if 5 = 1 then some .Version1And1Dot1 else none) ∧
     ((SpecificationInfoFields.from_bits (5 <<< 4)).version =
       if 5 = 1 then .Version1
       else if 5 = 2 then .Version1Dot1
       else if 5 = 3 then .Version1Dot1Pec
       else .Reserved)) :=
  ⟨by norm_num, specification_info_decode_amended 5 (by norm_num)⟩

/-- C9: serializing the `Pif` with `power_source_state` bits 0x3,
`max_output_power` 100, `max_input_power` 200 and empty model/serial/oem
slices (declared sizes 0) into a 12-byte buffer returns `Ok` and produces
exactly the bytes `03 00 00 00 64 00 00 00 C8 00 00 00`. -/
theorem pif_to_bytes_example_bytes :
    Pif.to_bytes ⟨0x3, 100, 200, [], [], []⟩ (List.replicate 12 0) 0 0 0 =
      .ok [0x03, 0x00, 0x00, 0x00, 0x64, 0x00, 0x00, 0x00,
           0xC8, 0x00, 0x00, 0x00] := by
  decide

/-- C1: the claim says a destination buffer of exactly the total required
length — the 64-byte fixed header plus the four declared variable-field
lengths — makes `BixReturn::to_bytes` return `Ok`. Evaluating the code on
the default `BixReturn` with empty variable fields, declared sizes 0 and a
64-byte destination: the length check passes (64 is not less than
`oem_info_end_idx` = 64), every header and variable field is written, and
then the write of `battery_swapping_capability` to
`dst_slice[64..68]` indexes out of bounds and panics. -/
theorem bix_to_bytes_exact_claimed_size_panics :
    BixReturn.to_bytes bixDefault (List.replicate 64 0) 0 0 0 0 = .panicked := by
  decide

/-- C2: the claim says every too-small destination buffer makes the
serializers return `InputSliceTooSmall` and that no input panics. Evaluating
`BixReturn::to_bytes` on the default value with declared sizes 0 and a
67-byte destination — one byte short of the 68 bytes the function actually
writes: the guard `dst_slice.len() < oem_info_end_idx` compares against 64,
so it passes, and the final write of `battery_swapping_capability` to
`dst_slice[64..68]` panics instead of returning the error. -/
theorem bix_to_bytes_one_byte_short_panics :
    BixReturn.to_bytes bixDefault (List.replicate 67 0) 0 0 0 0 = .panicked := by
  decide

/-- C4 counterexample: the claim says every logical operation exists in both
`SmartBattery` trait variants with the same argument and result types. At the
concrete operation names `temperature`, `remaining_capacity_alarm` and
`charging_current` the two catalogs disagree: the blocking `temperature`
returns `bool` while the async one returns `DeciKelvin` (= `u16`); the
blocking `remaining_capacity_alarm` is a combined get-and-set taking and
returning a `CapacityModeValue` while the async one is an argument-less
getter (with a separate `set_remaining_capacity_alarm`); and
`charging_current` exists only in the async trait. -/
theorem sync_async_signatures_differ :
    blockingSmartBatteryOps.filter (fun op => op.name == "temperature") =
      [⟨"temperature", [], Ty.bool⟩] ∧
    asyncSmartBatteryOps.filter (fun op => op.name == "temperature") =
      [⟨"temperature", [], Ty.u16⟩] ∧
    blockingSmartBatteryOps.filter
        (fun op => op.name == "remaining_capacity_alarm") =
      [⟨"remaining_capacity_alarm", [Ty.capacityModeValue], Ty.capacityModeValue⟩] ∧
    asyncSmartBatteryOps.filter
        (fun op => op.name == "remaining_capacity_alarm") =
      [⟨"remaining_capacity_alarm", [], Ty.capacityModeValue⟩] ∧
    blockingSmartBatteryOps.filter (fun op => op.name == "charging_current") =
      [] ∧
    asyncSmartBatteryOps.filter (fun op => op.name == "charging_current") =
      [⟨"charging_current", [], Ty.u16⟩] := by
  decide

/-- C4 amended: outside the six operations the async trait reworked — the
four combined get-and-set operations it split into get/set pairs
(`remaining_capacity_alarm`, `remaining_time_alarm`, `battery_mode`,
`at_rate`), `temperature` (`bool` vs `DeciKelvin`) and `specification_info`
(raw `u16` vs the typed bitfield) — every operation name common to both
traits carries identical argument and result types; the async trait
additionally has the `set_*` halves and `charging_current`/
`charging_voltage`, which have no blocking counterpart. -/
theorem sync_async_shared_ops_agree :
    ∀ op ∈ blockingSmartBatteryOps, ∀ op' ∈ asyncSmartBatteryOps,
      op.name = op'.name → op.name ∉ divergentOpNames →
      op.args = op'.args ∧ op.ret = op'.ret := by
  decide

/-- C4 witness: the agreement at the concrete shared operation `voltage`. -/
theorem sync_async_shared_ops_agree_witness :
    (⟨"voltage", [], Ty.u16⟩ : OpSig) ∈ blockingSmartBatteryOps ∧
    (⟨"voltage", [], Ty.u16⟩ : OpSig) ∈ asyncSmartBatteryOps ∧
    (([] : List Ty) = [] ∧ Ty.u16 = Ty.u16) :=
  ⟨by decide, by decide,
    sync_async_shared_ops_agree ⟨"voltage", [], Ty.u16⟩ (by decide)
      ⟨"voltage", [], Ty.u16⟩ (by decide) rfl (by decide)⟩

/-- C5 counterexample: the claim says a declared/actual length mismatch is
reported as `StringSizeMismatch` regardless of the buffer size. At the
concrete input with an empty `model_number`, declared model size 1 and an
empty destination buffer, both serializers report `InputSliceTooSmall`
instead: the buffer-size check runs first. -/
theorem mismatch_with_small_buffer_reports_too_small :
    (([] : List Nat).length ≠ 1) ∧
    Pif.to_bytes ⟨0, 0, 0, [], [], []⟩ [] 1 0 0 =
      .error .InputSliceTooSmall [] ∧
    BixReturn.to_bytes bixDefault [] 1 0 0 0 =
      .error .InputSliceTooSmall [] := by
  decide

/-- C5 amended: whenever any variable-length field's actual slice length
differs from its declared size and the destination buffer passes the size
check (its length is at least the fixed-header size plus the declared
sizes), both serializers fail with `StringSizeMismatch`; when the buffer is
also too small, `InputSliceTooSmall` takes precedence. -/
theorem size_mismatch_reported_when_buffer_fits :
    (∀ (p : Pif) (dst : List Nat) ms ss os,
      (p.model_number.length ≠ ms ∨ p.serial_number.length ≠ ss ∨
        p.oem_info.length ≠ os) →
      ¬ dst.length < 12 + ms + ss + os →
      Pif.to_bytes p dst ms ss os = .error .StringSizeMismatch dst) ∧
    (∀ (b : BixReturn) (dst : List Nat) ms ss bs os,
      (b.model_number.length ≠ ms ∨ b.serial_number.length ≠ ss ∨
        b.battery_type.length ≠ bs ∨ b.oem_info.length ≠ os) →
      ¬ dst.length < 64 + ms + ss + bs + os →
      BixReturn.to_bytes b dst ms ss bs os = .error .StringSizeMismatch dst) := by
  constructor
  · intro p dst ms ss os hmis hlen
    simp only [Pif.to_bytes]
    rw [if_neg hlen, if_pos hmis]
  · intro b dst ms ss bs os hmis hlen
    simp only [BixReturn.to_bytes]
    rw [if_neg hlen, if_pos hmis]

/-- C5 amended witness: a `Pif` with an empty `model_number`, declared model
size 1 and a 13-byte destination (large enough for the size check) reports
`StringSizeMismatch`. -/
theorem size_mismatch_reported_when_buffer_fits_witness :
    ((⟨0, 0, 0, [], [], []⟩ : Pif).model_number.length ≠ 1 ∨
      (⟨0, 0, 0, [], [], []⟩ : Pif).serial_number.length ≠ 0 ∨
      (⟨0, 0, 0, [], [], []⟩ : Pif).oem_info.length ≠ 0) ∧
    ¬ (List.replicate 13 0).length < 12 + 1 + 0 + 0 ∧
    Pif.to_bytes ⟨0, 0, 0, [], [], []⟩ (List.replicate 13 0) 1 0 0 =
      .error .StringSizeMismatch (List.replicate 13 0) :=
  ⟨by decide, by decide,
    size_mismatch_reported_when_buffer_fits.1 ⟨0, 0, 0, [], [], []⟩
      (List.replicate 13 0) 1 0 0 (by decide) (by decide)⟩

/-- C10: whenever `BixReturn::to_bytes` or `Pif::to_bytes` returns an error
(`InputSliceTooSmall` or `StringSizeMismatch`), the destination buffer is
exactly as it was passed in: both validation checks run before the first
byte is written, so the error returns carry the untouched buffer. -/
theorem to_bytes_error_leaves_buffer_unmodified :
    (∀ (b : BixReturn) (dst : List Nat) ms ss bs os e buf,
      BixReturn.to_bytes b dst ms ss bs os = .error e buf → buf = dst) ∧
    (∀ (p : Pif) (dst : List Nat) ms ss os e buf,
      Pif.to_bytes p dst ms ss os = .error e buf → buf = dst) := by
  constructor
  · intro b dst ms ss bs os e buf h
    simp only [BixReturn.to_bytes] at h
    split at h
    · cases h; rfl
    · split at h
      · cases h; rfl
      · split at h <;> cases h
  · intro p dst ms ss os e buf h
    simp only [Pif.to_bytes] at h
    split at h
    · cases h; rfl
    · split at h
      · cases h; rfl
      · split at h <;> cases h

/-- C10 witness: a failing `Pif::to_bytes` call (declared model size 5,
one-byte destination) whose error return carries the buffer unchanged. -/
theorem to_bytes_error_leaves_buffer_unmodified_witness :
    Pif.to_bytes ⟨0, 0, 0, [], [], []⟩ [7] 5 0 0 =
      .error .InputSliceTooSmall [7] ∧ ([7] : List Nat) = [7] :=
  ⟨by decide,
    to_bytes_error_leaves_buffer_unmodified.2 ⟨0, 0, 0, [], [], []⟩ [7] 5 0 0
      .InputSliceTooSmall [7] (by decide)⟩

end EmbeddedBatteries
